import Mathlib

/-!
# Suspicious-Activity-Detection: shallow embedding of `app.py`

This file embeds the core of the repository's single source file `app.py`
(frame sampling, inference orchestration, alert dispatch, daily digest,
activity log) as executable Lean definitions, and settles the frozen claims
about it.

Modelling conventions:
* OpenCV decoding is modelled by giving a video as the list of its decodable
  frames, already colour-converted (BGR→RGB) and resized to
  `IMG_SIZE × IMG_SIZE` — those two `cv2` calls are external image
  operations whose output is still a byte image, so a decoded raw frame is a
  byte grid (`Fin 256` values).  `CAP_PROP_FRAME_COUNT` is the length of
  that list.  A `cap.read()` at position `p` succeeds exactly when `p` is
  below the number of decodable frames, and a failed read leaves the
  position at the end, so reads keep failing afterwards — hence `readLoop`
  stops at the first failed retained read, exactly like the Python loop's
  `break`.
* `random.randint(0, total - need)` is modelled by passing the drawn value
  `r` as a parameter; theorems that depend on its range carry the
  documented bound `r ≤ total - need` as a hypothesis.
* TensorFlow inference and SMTP delivery are external calls that either
  return a value or raise; they are passed in as `Except PyExc _` values.
  Python exceptions are modelled by the `Except` monad: the global state
  (`dashboard_logs`, `daily_alert_buffer`) is threaded explicitly, and a
  step that raises returns the state unchanged because in the source every
  mutation of the globals is sequenced after the potential raise points.
* Python floats are modelled as `ℚ`.  `round(conf, 3)` is modelled as exact
  rounding to the nearest multiple of 1/1000 (`round3`); tie-breaking
  behaviour is irrelevant to every claim below.
-/

/-- `IMG_SIZE = 172` (app.py line 17). -/
def IMG_SIZE : ℕ := 172

/-- `NUM_FRAMES = 8` (app.py line 18). -/
def NUM_FRAMES : ℕ := 8

/-- `FRAME_STEP = 4` (app.py line 19). -/
def FRAME_STEP : ℕ := 4

/-- `class_names = ["not_suspicious", "suspicious"]` (app.py line 21). -/
def class_names : List String := ["not_suspicious", "suspicious"]

/-- `id_to_name` (app.py line 22); total with default `""` outside the
two defined class ids, which the two-class model never produces. -/
def id_to_name (i : ℕ) : String := class_names.getD i ""

/-- `ALERT_THRESHOLD = 0.80` (app.py line 34). -/
def ALERT_THRESHOLD : ℚ := 0.80

/-- `MAX_ATTACHMENT_MB = 22` (app.py line 35). -/
def MAX_ATTACHMENT_MB : ℚ := 22

/-- A processed clip frame: normalized intensities, one per pixel/channel. -/
def Frame : Type := Fin IMG_SIZE → Fin IMG_SIZE → Fin 3 → ℚ

/-- A decoded source frame after colour conversion and resizing: a byte grid. -/
def RawFrame : Type := Fin IMG_SIZE → Fin IMG_SIZE → Fin 3 → Fin 256

/-- `np.zeros((IMG_SIZE, IMG_SIZE, 3), dtype=np.float32)` (app.py line 89). -/
def zeroFrame : Frame := fun _ _ _ => 0

/-- `frame.astype("float32") / 255.0` (app.py line 82). -/
def procFrame (f : RawFrame) : Frame := fun i j c => ((f i j c : ℕ) : ℚ) / 255

/-- `need = 1 + (NUM_FRAMES - 1) * FRAME_STEP` (app.py line 72): the frame
span covered by one sampled clip. -/
def need : ℕ := 1 + (NUM_FRAMES - 1) * FRAME_STEP

/-- The retained-read loop of `extract_frames` (app.py lines 76–85): read
the frame at the current position; on failure break, otherwise process it
and skip `FRAME_STEP - 1` discarded frames, i.e. continue at
`pos + FRAME_STEP`. -/
def readLoop (v : List RawFrame) (pos : ℕ) : ℕ → List Frame
  | 0 => []
  | k + 1 =>
    match v[pos]? with
    | none => []
    | some f => procFrame f :: readLoop v (pos + FRAME_STEP) k

/-- `start = 0 if need > total else random.randint(0, total - need)`
(app.py line 73), with the random draw passed in as `r`. -/
def startIdx (v : List RawFrame) (r : ℕ) : ℕ :=
  if v.length < need then 0 else r

/-- `extract_frames` (app.py lines 68–91): sample up to `NUM_FRAMES` frames
starting at `startIdx`, then zero-pad to exactly `NUM_FRAMES`.  Note the
function has no failure path: a video with zero decodable frames yields a
clip of `NUM_FRAMES` all-zero frames. -/
def extract_frames (v : List RawFrame) (r : ℕ) : List Frame :=
  let fs := readLoop v (startIdx v r) NUM_FRAMES
  fs ++ List.replicate (NUM_FRAMES - fs.length) zeroFrame

/-- Helper for `argmaxIdx`: scan the tail keeping the first index of the
strictly largest value seen so far, as `np.argmax` does. -/
def argmaxAux : List ℚ → ℕ → ℕ → ℚ → ℕ
  | [], _, bi, _ => bi
  | x :: xs, n, bi, bv =>
    if bv < x then argmaxAux xs (n + 1) n x else argmaxAux xs (n + 1) bi bv

/-- `np.argmax` over a probability list (app.py line 98): first index of the
maximum; `0` on the empty list (which `np.argmax` rejects, and the two-class
model never produces). -/
def argmaxIdx : List ℚ → ℕ
  | [] => 0
  | x :: xs => argmaxAux xs 1 0 x

/-- A raised Python exception, identified by its message. -/
structure PyExc where
  msg : String
deriving DecidableEq

instance {ε α : Type} [DecidableEq ε] [DecidableEq α] :
    DecidableEq (Except ε α) := fun a b =>
  match a, b with
  | .error x, .error y =>
    if h : x = y then .isTrue (by rw [h])
    else .isFalse (fun hh => h (Except.error.inj hh))
  | .error _, .ok _ => .isFalse (fun hh => Except.noConfusion hh)
  | .ok _, .error _ => .isFalse (fun hh => Except.noConfusion hh)
  | .ok x, .ok y =>
    if h : x = y then .isTrue (by rw [h])
    else .isFalse (fun hh => h (Except.ok.inj hh))

/-- `predict_video` (app.py lines 93–99): extract the clip, run the external
model stack on it (MoViNet features then the classifier head, folded into
one external call `model`), and take argmax label and its probability. -/
def predict_video (v : List RawFrame) (r : ℕ)
    (model : List Frame → Except PyExc (List ℚ)) : Except PyExc (String × ℚ) :=
  match model (extract_frames v r) with
  | .error e => .error e
  | .ok probs =>
    let i := argmaxIdx probs
    .ok (id_to_name i, probs.getD i 0)

/-- One row of `dashboard_logs` / `daily_alert_buffer` (app.py lines
443–449): the dict `{time, filename, prediction, confidence, alert}`. -/
structure LogRecord where
  time : String
  filename : String
  prediction : String
  confidence : ℚ
  alert : String
deriving DecidableEq

/-- The two module-level mutable stores (app.py lines 44–45). -/
structure ServerState where
  dashboard_logs : List LogRecord
  daily_alert_buffer : List LogRecord
deriving DecidableEq

/-- `round(conf, 3)` (app.py line 447): rounding to the nearest multiple of
1/1000, exactly over `ℚ`. -/
def round3 (q : ℚ) : ℚ := (round (q * 1000) : ℤ) / 1000

/-- The record literal built by `predict` (app.py lines 443–449), with the
given alert field value. -/
def mkRecord (now fn pred : String) (conf : ℚ) (alert : String) : LogRecord :=
  { time := now, filename := fn, prediction := pred,
    confidence := round3 conf, alert := alert }

/-- The `/predict` handler core (app.py lines 442–457).  `pv` is the outcome
of `predict_video` (which may raise), `sendOut` the outcome of the SMTP send
inside `send_email_alert` (which may raise).  On the dispatch path the send
happens before any mutation, so a raised exception leaves both stores
unchanged and propagates; otherwise the record (alert `"SENT"` or `"NO"`) is
pushed at the head of `dashboard_logs`, and on the successful dispatch path
a copy is appended to `daily_alert_buffer`. -/
def predict (pv : Except PyExc (String × ℚ)) (sendOut : Except PyExc Unit)
    (now fn : String) (st : ServerState) :
    ServerState × Except PyExc LogRecord :=
  match pv with
  | .error e => (st, .error e)
  | .ok (pred, conf) =>
    if pred = "suspicious" ∧ ALERT_THRESHOLD ≤ conf then
      match sendOut with
      | .error e => (st, .error e)
      | .ok _ =>
        let record := mkRecord now fn pred conf "SENT"
        ({ dashboard_logs := record :: st.dashboard_logs,
           daily_alert_buffer := st.daily_alert_buffer ++ [record] },
         .ok record)
    else
      let record := mkRecord now fn pred conf "NO"
      ({ st with dashboard_logs := record :: st.dashboard_logs }, .ok record)

/-- The `/predict` handler with the inference stage composed in. -/
def handle_upload (v : List RawFrame) (r : ℕ)
    (model : List Frame → Except PyExc (List ℚ)) (sendOut : Except PyExc Unit)
    (now fn : String) (st : ServerState) :
    ServerState × Except PyExc LogRecord :=
  predict (predict_video v r model) sendOut now fn st

/-- `size_mb <= MAX_ATTACHMENT_MB` (app.py lines 124–125): whether the
attachment is included, from the file size in bytes. -/
def attach_included (sizeBytes : ℕ) : Bool :=
  decide ((sizeBytes : ℚ) / (1024 * 1024) ≤ MAX_ATTACHMENT_MB)

/-- `send_email_alert` (app.py lines 108–130): compose the message, attach
the video iff its size is within the cap, then attempt the SMTP send.  The
result carries whether the sent message had the attachment. -/
def send_email_alert (sizeBytes : ℕ) (sendOut : Except PyExc Unit) :
    Except PyExc Bool :=
  sendOut.map fun _ => attach_included sizeBytes

/-- `send_daily_summary` (app.py lines 132–144): an empty buffer returns
immediately; otherwise the digest enumerating every buffered record in
buffer order is composed and the send attempted.  `daily_alert_buffer.clear()`
runs only after a successful send, so a raised send leaves the buffer
intact (and the exception propagates into `summary_worker`, killing the
worker loop).  The digest is modelled as the list of records it
enumerates (the body formats each as `time | filename | confidence`). -/
def send_daily_summary (sendOut : Except PyExc Unit) (st : ServerState) :
    ServerState × Except PyExc (Option (List LogRecord)) :=
  if st.daily_alert_buffer = [] then (st, .ok none)
  else
    match sendOut with
    | .error e => (st, .error e)
    | .ok _ =>
      ({ st with daily_alert_buffer := [] }, .ok (some st.daily_alert_buffer))

/-- `dashboard_logs.insert(0, record)` (app.py line 456). -/
def record_entry (e : LogRecord) (logs : List LogRecord) : List LogRecord :=
  e :: logs

/-- `dashboard_logs[:limit]` (app.py line 164 with `limit = 10`): a slice is
a fresh list and does not mutate the store, so the read returns the taken
prefix together with the untouched store. -/
def recent (limit : ℕ) (logs : List LogRecord) :
    List LogRecord × List LogRecord :=
  (logs.take limit, logs)

/-- States reachable from the initial empty stores by any interleaving of
`/predict` requests and digest cycles. -/
inductive Reachable : ServerState → Prop where
  | init : Reachable ⟨[], []⟩
  | step_predict (pv : Except PyExc (String × ℚ)) (sendOut : Except PyExc Unit)
      (now fn : String) {st : ServerState} (st' : ServerState)
      (out : Except PyExc LogRecord) :
      Reachable st → predict pv sendOut now fn st = (st', out) → Reachable st'
  | step_summary (sendOut : Except PyExc Unit) {st : ServerState}
      (st' : ServerState) (out : Except PyExc (Option (List LogRecord))) :
      Reachable st → send_daily_summary sendOut st = (st', out) →
      Reachable st'

/-! ## Helper lemmas -/

/-- The retained-read loop returns at most `k` frames. -/
theorem readLoop_length_le (v : List RawFrame) :
    ∀ (k : ℕ) (pos : ℕ), (readLoop v pos k).length ≤ k := by
  intro k
  induction k with
  | zero => intro pos; simp [readLoop]
  | succ n ih =>
    intro pos
    rw [readLoop]
    split
    · simp
    · simpa using ih (pos + FRAME_STEP)

/-- Every frame returned by the retained-read loop is a processed source
frame. -/
theorem readLoop_mem (v : List RawFrame) :
    ∀ (k : ℕ) (pos : ℕ) (f : Frame),
      f ∈ readLoop v pos k → ∃ g, f = procFrame g := by
  intro k
  induction k with
  | zero => intro pos f hf; simp [readLoop] at hf
  | succ n ih =>
    intro pos f hf
    rw [readLoop] at hf
    split at hf
    · simp at hf
    · rcases List.mem_cons.mp hf with h | h
      · exact ⟨_, h⟩
      · exact ih (pos + FRAME_STEP) f h

/-- A byte intensity divided by 255 lies in `[0, 1]`. -/
theorem procFrame_bounds (g : RawFrame) (i j : Fin IMG_SIZE) (c : Fin 3) :
    0 ≤ procFrame g i j c ∧ procFrame g i j c ≤ 1 := by
  constructor
  · unfold procFrame
    positivity
  · unfold procFrame
    rw [div_le_one (by norm_num)]
    have h := (g i j c).isLt
    have : ((g i j c : ℕ) : ℚ) ≤ 255 := by exact_mod_cast Nat.lt_succ_iff.mp h
    linarith

/-- Folding head insertion over an insertion sequence reverses it. -/
theorem foldl_record_entry :
    ∀ (es acc : List LogRecord),
      es.foldl (fun logs e => record_entry e logs) acc = es.reverse ++ acc := by
  intro es
  induction es with
  | nil => intro acc; simp
  | cons x xs ih =>
    intro acc
    rw [List.foldl_cons, ih]
    simp [record_entry]

/-- A successful `/predict` call pushes exactly its result record at the
head of `dashboard_logs`. -/
theorem predict_ok_logs {pv : Except PyExc (String × ℚ)}
    {sendOut : Except PyExc Unit} {now fn : String} {st : ServerState}
    {rec : LogRecord} (h : (predict pv sendOut now fn st).2 = Except.ok rec) :
    (predict pv sendOut now fn st).1.dashboard_logs = rec :: st.dashboard_logs := by
  cases pv with
  | error e => simp [predict] at h
  | ok pc =>
    obtain ⟨pred, conf⟩ := pc
    by_cases hc : pred = "suspicious" ∧ ALERT_THRESHOLD ≤ conf
    · simp only [predict] at h ⊢
      rw [if_pos hc] at h ⊢
      cases sendOut with
      | error e => simp at h
      | ok u =>
        simp only [Except.ok.injEq] at h
        rw [← h]
    · simp only [predict] at h ⊢
      rw [if_neg hc] at h ⊢
      simp only [Except.ok.injEq] at h
      rw [← h]

/-- The daily buffer is either untouched by a `/predict` call, or the call
was a successful dispatch of a suspicious detection meeting the threshold
and the buffer gained exactly that `"SENT"` record at its end. -/
theorem predict_buffer (pv : Except PyExc (String × ℚ))
    (sendOut : Except PyExc Unit) (now fn : String) (st : ServerState) :
    (predict pv sendOut now fn st).1.daily_alert_buffer = st.daily_alert_buffer ∨
    ∃ conf, pv = Except.ok ("suspicious", conf) ∧ sendOut = Except.ok () ∧
      ALERT_THRESHOLD ≤ conf ∧
      (predict pv sendOut now fn st).1.daily_alert_buffer
        = st.daily_alert_buffer ++ [mkRecord now fn "suspicious" conf "SENT"] := by
  cases pv with
  | error e => left; rfl
  | ok pc =>
    obtain ⟨pred, conf⟩ := pc
    by_cases hc : pred = "suspicious" ∧ ALERT_THRESHOLD ≤ conf
    · obtain ⟨hp, hconf⟩ := hc
      subst hp
      cases sendOut with
      | error e =>
        left
        simp only [predict]
        rw [if_pos (by exact ⟨by trivial, hconf⟩)]
      | ok u =>
        cases u
        right
        refine ⟨conf, rfl, rfl, hconf, ?_⟩
        simp only [predict]
        rw [if_pos (by exact ⟨by trivial, hconf⟩)]
    · left
      simp only [predict]
      rw [if_neg hc]

/-- A digest cycle either leaves the daily buffer untouched or clears it. -/
theorem summary_buffer (sendOut : Except PyExc Unit) (st : ServerState) :
    (send_daily_summary sendOut st).1.daily_alert_buffer = st.daily_alert_buffer ∨
    (send_daily_summary sendOut st).1.daily_alert_buffer = [] := by
  by_cases hb : st.daily_alert_buffer = []
  · left
    simp only [send_daily_summary]
    rw [if_pos hb]
  · cases sendOut with
    | error e =>
      left
      simp only [send_daily_summary]
      rw [if_neg hb]
    | ok u =>
      right
      cases u
      simp only [send_daily_summary]
      rw [if_neg hb]

/-- `round3` is monotone. -/
theorem round3_le_round3 {a b : ℚ} (h : a ≤ b) : round3 a ≤ round3 b := by
  rw [round3, round3]
  have h2 : round (a * 1000) ≤ round (b * 1000) := by
    rw [round_eq, round_eq]
    exact Int.floor_le_floor (by linarith)
  have h3 : ((round (a * 1000) : ℤ) : ℚ) ≤ ((round (b * 1000) : ℤ) : ℚ) := by
    exact_mod_cast h2
  linarith

/-- Rounding to three decimals preserves having met the alert threshold,
because the threshold is itself a multiple of 1/1000. -/
theorem round3_alert {q : ℚ} (h : ALERT_THRESHOLD ≤ q) :
    ALERT_THRESHOLD ≤ round3 q := by
  have h0 : round3 ALERT_THRESHOLD = ALERT_THRESHOLD := by
    norm_num [round3, ALERT_THRESHOLD, round_eq]
  calc ALERT_THRESHOLD = round3 ALERT_THRESHOLD := h0.symm
    _ ≤ round3 q := round3_le_round3 h

/-! ## Claims -/

/-- C1, counterexample: on the dispatch path (`suspicious`, confidence 9/10
≥ 0.80) a raised SMTP send propagates out of `predict`: the result is the
exception, not a `FAILED` status, and `dashboard_logs` stays empty — the
detection is not logged at all. -/
theorem C1_counterexample :
    predict (Except.ok ("suspicious", 9/10)) (Except.error ⟨"smtp"⟩)
      "t" "f" ⟨[], []⟩ = (⟨[], []⟩, Except.error ⟨"smtp"⟩) := by
  rw [predict, if_pos ⟨rfl, by norm_num [ALERT_THRESHOLD]⟩]

/-- C1, amended: if sending the immediate alert raises, the exception
propagates out of the `/predict` handler (the request fails), no alert
status is produced (the code has only `"NO"` and `"SENT"`), and neither
`dashboard_logs` nor `daily_alert_buffer` is changed, because every
mutation of the stores is sequenced after the send. -/
theorem C1_amended_thm (conf : ℚ) (e : PyExc) (now fn : String)
    (st : ServerState) (h : ALERT_THRESHOLD ≤ conf) :
    predict (Except.ok ("suspicious", conf)) (Except.error e) now fn st
      = (st, Except.error e) := by
  rw [predict, if_pos ⟨rfl, h⟩]

/-- Witness for C1: the amended theorem applied at confidence 9/10. -/
theorem C1_witness :
    ALERT_THRESHOLD ≤ (9/10 : ℚ) ∧
    predict (Except.ok ("suspicious", 9/10)) (Except.error ⟨"x"⟩)
      "w" "v" ⟨[], []⟩ = (⟨[], []⟩, Except.error ⟨"x"⟩) :=
  ⟨by norm_num [ALERT_THRESHOLD],
   C1_amended_thm (9/10) ⟨"x"⟩ "w" "v" ⟨[], []⟩
     (by norm_num [ALERT_THRESHOLD])⟩

/-- C2: evaluating `extract_frames` at the failing input — a video with
zero decodable frames.  It does not report any decode failure: it returns
an all-zero clip of `NUM_FRAMES` frames as if extraction had succeeded,
exactly the naive zero-padding the spec's failure policy forbids. -/
theorem C2_thm : extract_frames [] 0 = List.replicate NUM_FRAMES zeroFrame := rfl

/-- C3, counterexample: a video with zero decodable frames — the spec's
`DecodeError` case — does not abort the pipeline: `extract_frames` hands an
all-zero clip to the (here concretely chosen) external classifier, and the
`/predict` call records an entry in `dashboard_logs`, which grows from `[]`
to one record. -/
theorem C3_counterexample :
    handle_upload [] 0 (fun _ => Except.ok [7/10, 3/10]) (Except.ok ())
      "t" "f" ⟨[], []⟩
      = (⟨[mkRecord "t" "f" "not_suspicious" (7/10) "NO"], []⟩,
         Except.ok (mkRecord "t" "f" "not_suspicious" (7/10) "NO")) := by
  have h1 : predict_video [] 0 (fun _ => Except.ok [7/10, 3/10])
      = Except.ok ("not_suspicious", 7/10) := by
    rw [predict_video]
    norm_num [argmaxIdx, argmaxAux, id_to_name, class_names]
  rw [handle_upload, h1, predict,
    if_neg (fun hh => absurd hh.1 (by decide))]

/-- C3, amended: a Python exception raised in any stage (inference or, on
the dispatch path, delivery) aborts the `/predict` call with the stores
unchanged, so no ActivityLog entry is created for it, and a successful call
creates exactly one entry (its result record, at the head); but a video
with zero decodable frames does not raise — it yields an all-zero clip,
inference proceeds, and an entry is created (see the counterexample). -/
theorem C3_amended_thm :
    (∀ (e : PyExc) (sendOut : Except PyExc Unit) (now fn : String)
       (st : ServerState),
       predict (Except.error e) sendOut now fn st = (st, Except.error e)) ∧
    (∀ (pv : Except PyExc (String × ℚ)) (sendOut : Except PyExc Unit)
       (now fn : String) (st : ServerState) (rec : LogRecord),
       (predict pv sendOut now fn st).2 = Except.ok rec →
       (predict pv sendOut now fn st).1.dashboard_logs
         = rec :: st.dashboard_logs) :=
  ⟨fun _ _ _ _ _ => rfl, fun _ _ _ _ _ _ h => predict_ok_logs h⟩

/-- Witness for C3: a raised inference exception leaves the store empty,
and a completed inference pushes its record. -/
theorem C3_witness :
    predict (Except.error ⟨"tf"⟩) (Except.ok ()) "t" "f" ⟨[], []⟩
      = (⟨[], []⟩, Except.error ⟨"tf"⟩) ∧
    (predict (Except.ok ("not_suspicious", 1/2)) (Except.ok ())
        "t" "f" ⟨[], []⟩).1.dashboard_logs
      = mkRecord "t" "f" "not_suspicious" (1/2) "NO" :: ([] : List LogRecord) :=
  ⟨C3_amended_thm.1 ⟨"tf"⟩ (Except.ok ()) "t" "f" ⟨[], []⟩,
   C3_amended_thm.2 (Except.ok ("not_suspicious", 1/2)) (Except.ok ())
     "t" "f" ⟨[], []⟩ (mkRecord "t" "f" "not_suspicious" (1/2) "NO")
     (by rw [predict, if_neg (fun hh => absurd hh.1 (by decide))])⟩

/-- C4, counterexample: a digest cycle whose send raises does not clear the
daily buffer — the record stays buffered, because
`daily_alert_buffer.clear()` is sequenced after the successful send. -/
theorem C4_counterexample :
    send_daily_summary (Except.error ⟨"smtp"⟩)
      ⟨[], [mkRecord "t" "f" "suspicious" (9/10) "SENT"]⟩
      = (⟨[], [mkRecord "t" "f" "suspicious" (9/10) "SENT"]⟩,
         Except.error ⟨"smtp"⟩) := by
  rw [send_daily_summary, if_neg (by simp)]

/-- C4, amended: a cycle with an empty buffer skips sending and leaves the
(empty) buffer as is; a cycle with a non-empty buffer composes one digest
enumerating every buffered record in buffer order and clears the buffer
only when the send succeeds — a raised send leaves the buffer intact (and
the exception terminates the worker loop, so those records are never
resent by the code). -/
theorem C4_amended_thm (st : ServerState) (e : PyExc) :
    (st.daily_alert_buffer = [] →
       ∀ sendOut, send_daily_summary sendOut st = (st, Except.ok none)) ∧
    (st.daily_alert_buffer ≠ [] →
       send_daily_summary (Except.error e) st = (st, Except.error e)) ∧
    (st.daily_alert_buffer ≠ [] →
       send_daily_summary (Except.ok ()) st
         = ({ st with daily_alert_buffer := [] },
            Except.ok (some st.daily_alert_buffer))) := by
  refine ⟨fun hb sendOut => ?_, fun hb => ?_, fun hb => ?_⟩
  · simp only [send_daily_summary]
    rw [if_pos hb]
  · simp only [send_daily_summary]
    rw [if_neg hb]
  · simp only [send_daily_summary]
    rw [if_neg hb]

/-- Witness for C4: a successful non-empty cycle emits exactly the buffered
record and clears the buffer; an empty cycle is a no-op. -/
theorem C4_witness :
    send_daily_summary (Except.ok ())
      ⟨[], [mkRecord "a" "b" "suspicious" (9/10) "SENT"]⟩
      = (⟨[], []⟩,
         Except.ok (some [mkRecord "a" "b" "suspicious" (9/10) "SENT"])) ∧
    send_daily_summary (Except.ok ()) ⟨[], []⟩ = (⟨[], []⟩, Except.ok none) :=
  ⟨(C4_amended_thm ⟨[], [mkRecord "a" "b" "suspicious" (9/10) "SENT"]⟩
      ⟨"e"⟩).2.2 (by simp),
   (C4_amended_thm ⟨[], []⟩ ⟨"e"⟩).1 rfl (Except.ok ())⟩

/-- C5, counterexample: at the boundary confidence 0.80 a dispatch is
attempted, but on a raised send the outcome is neither a `SENT` nor a
`FAILED` status: the exception propagates and no record with any status is
produced (the code has no `FAILED` status at all). -/
theorem C5_counterexample :
    predict (Except.ok ("suspicious", 0.80)) (Except.error ⟨"smtp"⟩)
      "t" "f" ⟨[], []⟩ = (⟨[], []⟩, Except.error ⟨"smtp"⟩) := by
  rw [predict, if_pos ⟨rfl, by norm_num [ALERT_THRESHOLD]⟩]

/-- C5, amended: an alert dispatch is attempted iff the label is
`"suspicious"` and the confidence is ≥ `ALERT_THRESHOLD` (so 0.79 gives
alert `"NO"` with no action, and 0.80 attempts the send); when attempted,
a successful send records status `"SENT"`, while a raised send propagates
with no recorded status — the outcome on the dispatch path is never
`"NO"`, but `FAILED` does not exist in the code. -/
theorem C5_amended_thm (pred : String) (conf : ℚ) (now fn : String)
    (st : ServerState) :
    (¬(pred = "suspicious" ∧ ALERT_THRESHOLD ≤ conf) →
       ∀ sendOut, predict (Except.ok (pred, conf)) sendOut now fn st
         = ({ st with dashboard_logs :=
                mkRecord now fn pred conf "NO" :: st.dashboard_logs },
            Except.ok (mkRecord now fn pred conf "NO"))) ∧
    ((pred = "suspicious" ∧ ALERT_THRESHOLD ≤ conf) →
       (predict (Except.ok (pred, conf)) (Except.ok ()) now fn st
          = ({ dashboard_logs :=
                 mkRecord now fn pred conf "SENT" :: st.dashboard_logs,
               daily_alert_buffer :=
                 st.daily_alert_buffer ++ [mkRecord now fn pred conf "SENT"] },
             Except.ok (mkRecord now fn pred conf "SENT"))) ∧
       (∀ e, predict (Except.ok (pred, conf)) (Except.error e) now fn st
          = (st, Except.error e))) := by
  constructor
  · intro hc sendOut
    simp only [predict]
    rw [if_neg hc]
  · intro hc
    constructor
    · simp only [predict]
      rw [if_pos hc]
    · intro e
      simp only [predict]
      rw [if_pos hc]

/-- Witness for C5: at confidence 0.79 the alert is `"NO"` and nothing else
happens; at 0.80 with a successful send the record is `"SENT"` and is also
buffered. -/
theorem C5_witness :
    predict (Except.ok ("suspicious", 79/100)) (Except.ok ()) "t" "f" ⟨[], []⟩
      = (⟨[mkRecord "t" "f" "suspicious" (79/100) "NO"], []⟩,
         Except.ok (mkRecord "t" "f" "suspicious" (79/100) "NO")) ∧
    predict (Except.ok ("suspicious", 80/100)) (Except.ok ()) "t" "f" ⟨[], []⟩
      = (⟨[mkRecord "t" "f" "suspicious" (80/100) "SENT"],
          [mkRecord "t" "f" "suspicious" (80/100) "SENT"]⟩,
         Except.ok (mkRecord "t" "f" "suspicious" (80/100) "SENT")) :=
  ⟨(C5_amended_thm "suspicious" (79/100) "t" "f" ⟨[], []⟩).1
     (fun hh => absurd hh.2 (by norm_num [ALERT_THRESHOLD])) (Except.ok ()),
   ((C5_amended_thm "suspicious" (80/100) "t" "f" ⟨[], []⟩).2
     ⟨rfl, by norm_num [ALERT_THRESHOLD]⟩).1⟩

/-- C6, confirmed: the video is attached iff its byte size is at most the
22 MB cap (`size_mb <= MAX_ATTACHMENT_MB` with `size_mb = bytes/1024²`),
and the send is attempted regardless: an over-cap size only strips the
attachment, it never turns a deliverable alert into a failure — the send
outcome is exactly the SMTP outcome for every size. -/
theorem C6_thm (sizeBytes : ℕ) :
    (attach_included sizeBytes = true ↔ sizeBytes ≤ 22 * 1024 * 1024) ∧
    (send_email_alert sizeBytes (Except.ok ())
       = Except.ok (attach_included sizeBytes)) ∧
    (∀ e, send_email_alert sizeBytes (Except.error e) = Except.error e) := by
  refine ⟨?_, rfl, fun e => rfl⟩
  rw [attach_included, MAX_ATTACHMENT_MB, decide_eq_true_eq,
    div_le_iff₀ (by norm_num : (0:ℚ) < 1024 * 1024)]
  constructor
  · intro h
    exact_mod_cast h
  · intro h
    exact_mod_cast h

/-- C7, confirmed: for any video and any admissible random draw (the
`randint(0, total − need)` range when `total ≥ need = 1+(N−1)·stride`, and
anything when the video is short, where the code forces start 0), the
extracted clip has exactly `NUM_FRAMES` frames, every channel intensity
lies in `[0, 1]`, the start index is 0 for short videos and the drawn value
in `[0, total − need]` otherwise, and the frames not actually decoded are
exactly the all-zero padding at the tail. -/
theorem C7_thm (v : List RawFrame) (r : ℕ)
    (h : need ≤ v.length → r ≤ v.length - need) :
    (extract_frames v r).length = NUM_FRAMES ∧
    (∀ f ∈ extract_frames v r, ∀ i j c, 0 ≤ f i j c ∧ f i j c ≤ 1) ∧
    (v.length < need → startIdx v r = 0) ∧
    (need ≤ v.length → startIdx v r = r ∧ r ≤ v.length - need) ∧
    extract_frames v r
      = readLoop v (startIdx v r) NUM_FRAMES
        ++ List.replicate
             (NUM_FRAMES - (readLoop v (startIdx v r) NUM_FRAMES).length)
             zeroFrame := by
  have hlen := readLoop_length_le v NUM_FRAMES (startIdx v r)
  refine ⟨?_, ?_, ?_, ?_, rfl⟩
  · rw [extract_frames]
    simp only [List.length_append, List.length_replicate]
    omega
  · intro f hf i j c
    rw [extract_frames] at hf
    rcases List.mem_append.mp hf with hm | hm
    · obtain ⟨g, rfl⟩ := readLoop_mem v NUM_FRAMES (startIdx v r) f hm
      exact procFrame_bounds g i j c
    · rw [List.eq_of_mem_replicate hm]
      simp [zeroFrame]
  · intro hshort
    rw [startIdx, if_pos hshort]
  · intro hlong
    exact ⟨by rw [startIdx, if_neg (Nat.not_lt.mpr hlong)], h hlong⟩

/-- Witness for C7: a zero-frame video with draw 0 still yields a clip of
exactly `NUM_FRAMES` frames. -/
theorem C7_witness :
    (need ≤ ([] : List RawFrame).length →
       0 ≤ ([] : List RawFrame).length - need) ∧
    (extract_frames [] 0).length = NUM_FRAMES :=
  ⟨by decide, (C7_thm [] 0 (by decide)).1⟩

/-- C8, confirmed: a successful `/predict` inserts its record at the head
of `dashboard_logs`; for every limit, reading the recent entries from a
store built by any insertion sequence returns the at-most-`limit` newest
entries in reverse-insertion order; the read hands the store back
unmodified, so two consecutive reads with no intervening inference return
identical sequences. -/
theorem C8_thm :
    (∀ (pv : Except PyExc (String × ℚ)) (sendOut : Except PyExc Unit)
       (now fn : String) (st : ServerState) (rec : LogRecord),
       (predict pv sendOut now fn st).2 = Except.ok rec →
       (predict pv sendOut now fn st).1.dashboard_logs
         = rec :: st.dashboard_logs) ∧
    (∀ (limit : ℕ) (es : List LogRecord),
       (recent limit (es.foldl (fun logs e => record_entry e logs) [])).1
         = es.reverse.take limit) ∧
    (∀ (limit : ℕ) (logs : List LogRecord),
       (recent limit logs).1.length ≤ limit ∧ (recent limit logs).2 = logs) ∧
    (∀ (limit : ℕ) (logs : List LogRecord),
       (recent limit (recent limit logs).2).1 = (recent limit logs).1) := by
  refine ⟨fun _ _ _ _ _ _ h => predict_ok_logs h, fun limit es => ?_,
    fun limit logs => ⟨?_, rfl⟩, fun limit logs => rfl⟩
  · rw [recent, foldl_record_entry]
    simp
  · rw [recent]
    exact List.length_take_le limit logs

/-- Witness for C8: a concrete successful inference pushes its record at
the head, and a three-insertion store read with limit 2 returns the two
newest entries, newest first. -/
theorem C8_witness :
    (predict (Except.ok ("not_suspicious", 3/5)) (Except.ok ())
        "w" "v" ⟨[], []⟩).1.dashboard_logs
      = mkRecord "w" "v" "not_suspicious" (3/5) "NO" :: ([] : List LogRecord) ∧
    (recent 2
        ([mkRecord "1" "a" "not_suspicious" 0 "NO",
          mkRecord "2" "b" "not_suspicious" 0 "NO",
          mkRecord "3" "c" "suspicious" (1/4) "NO"].foldl
          (fun logs e => record_entry e logs) [])).1
      = [mkRecord "1" "a" "not_suspicious" 0 "NO",
         mkRecord "2" "b" "not_suspicious" 0 "NO",
         mkRecord "3" "c" "suspicious" (1/4) "NO"].reverse.take 2 :=
  ⟨C8_thm.1 (Except.ok ("not_suspicious", 3/5)) (Except.ok ()) "w" "v"
     ⟨[], []⟩ (mkRecord "w" "v" "not_suspicious" (3/5) "NO")
     (by rw [predict, if_neg (fun hh => absurd hh.1 (by decide))]),
   C8_thm.2.1 2
     [mkRecord "1" "a" "not_suspicious" 0 "NO",
      mkRecord "2" "b" "not_suspicious" 0 "NO",
      mkRecord "3" "c" "suspicious" (1/4) "NO"]⟩

/-- C9, confirmed: in every reachable state each buffered record is a
`"suspicious"` prediction with alert `"SENT"` whose (stored, rounded)
confidence still meets `ALERT_THRESHOLD` — it was appended only at dispatch
time with an unrounded confidence ≥ the threshold, and rounding to three
decimals preserves the bound because 0.80 is a multiple of 1/1000; and a
`/predict` step grows the buffer only on the successful-dispatch path
(suspicious label, threshold met, send succeeded), never otherwise. -/
theorem C9_thm :
    (∀ st, Reachable st → ∀ rec ∈ st.daily_alert_buffer,
       rec.prediction = "suspicious" ∧ rec.alert = "SENT" ∧
       ALERT_THRESHOLD ≤ rec.confidence) ∧
    (∀ (pv : Except PyExc (String × ℚ)) (sendOut : Except PyExc Unit)
       (now fn : String) (st : ServerState),
       (predict pv sendOut now fn st).1.daily_alert_buffer
         = st.daily_alert_buffer ∨
       ∃ conf, pv = Except.ok ("suspicious", conf) ∧ sendOut = Except.ok () ∧
         ALERT_THRESHOLD ≤ conf ∧
         (predict pv sendOut now fn st).1.daily_alert_buffer
           = st.daily_alert_buffer
             ++ [mkRecord now fn "suspicious" conf "SENT"]) := by
  constructor
  · intro st hreach
    induction hreach with
    | init => intro rec hrec; simp at hrec
    | step_predict pv sendOut now fn st' out hr heq ih =>
      intro rec hrec
      rcases predict_buffer pv sendOut now fn _ with hb | ⟨conf, _, _, hconf, hb⟩
      · rw [heq] at hb
        exact ih rec (hb ▸ hrec)
      · rw [heq] at hb
        rw [hb] at hrec
        rcases List.mem_append.mp hrec with hm | hm
        · exact ih rec hm
        · rw [List.mem_singleton.mp hm]
          exact ⟨rfl, rfl, round3_alert hconf⟩
    | step_summary sendOut st' out hr heq ih =>
      intro rec hrec
      rcases summary_buffer sendOut _ with hb | hb
      · rw [heq] at hb
        exact ih rec (hb ▸ hrec)
      · rw [heq] at hb
        rw [hb] at hrec
        simp at hrec
  · exact predict_buffer

/-- Witness for C9: the state reached by one successful suspicious
detection at confidence 0.85 is reachable, and its single buffered record
satisfies the invariant. -/
theorem C9_witness :
    (mkRecord "g" "h" "suspicious" (85/100) "SENT").prediction
      = "suspicious" ∧
    (mkRecord "g" "h" "suspicious" (85/100) "SENT").alert = "SENT" ∧
    ALERT_THRESHOLD ≤ (mkRecord "g" "h" "suspicious" (85/100) "SENT").confidence :=
  C9_thm.1
    ⟨[mkRecord "g" "h" "suspicious" (85/100) "SENT"],
     [mkRecord "g" "h" "suspicious" (85/100) "SENT"]⟩
    (Reachable.step_predict (Except.ok ("suspicious", 85/100)) (Except.ok ())
      "g" "h" _ _ Reachable.init
      (by rw [predict, if_pos ⟨rfl, by norm_num [ALERT_THRESHOLD]⟩]; rfl))
    (mkRecord "g" "h" "suspicious" (85/100) "SENT")
    (List.mem_singleton.mpr rfl)

/-- C10, confirmed: every record a completed `/predict` call stores (in
`dashboard_logs`, and on the dispatch path the identical record in
`daily_alert_buffer`) carries `round(conf, 3)`, while the dispatch decision
compares the unrounded classifier confidence against `ALERT_THRESHOLD`;
at confidence 0.7996 the two differ: the stored value 0.800 meets the
threshold, yet the comparison used 0.7996 and did not dispatch. -/
theorem C10_thm :
    (∀ (pred : String) (conf : ℚ) (sendOut : Except PyExc Unit)
       (now fn : String) (st st' : ServerState) (rec : LogRecord),
       predict (Except.ok (pred, conf)) sendOut now fn st
         = (st', Except.ok rec) →
       rec.confidence = round3 conf ∧
       (rec.alert = "SENT" ↔ pred = "suspicious" ∧ ALERT_THRESHOLD ≤ conf) ∧
       (st'.daily_alert_buffer = st.daily_alert_buffer ∨
        st'.daily_alert_buffer = st.daily_alert_buffer ++ [rec])) ∧
    (round3 (1999/2500) = ALERT_THRESHOLD ∧
     ¬ ALERT_THRESHOLD ≤ (1999/2500 : ℚ) ∧
     (1999/2500 : ℚ) ≠ round3 (1999/2500)) := by
  constructor
  · intro pred conf sendOut now fn st st' rec h
    by_cases hc : pred = "suspicious" ∧ ALERT_THRESHOLD ≤ conf
    · simp only [predict] at h
      rw [if_pos hc] at h
      cases sendOut with
      | error e => simp at h
      | ok u =>
        simp only [Prod.mk.injEq, Except.ok.injEq] at h
        obtain ⟨hst, hrec⟩ := h
        refine ⟨by rw [← hrec]; rfl, ?_, ?_⟩
        · rw [← hrec]
          simp only [mkRecord, true_iff]
          exact hc
        · right
          rw [← hst, ← hrec]
    · simp only [predict] at h
      rw [if_neg hc] at h
      simp only [Prod.mk.injEq, Except.ok.injEq] at h
      obtain ⟨hst, hrec⟩ := h
      refine ⟨by rw [← hrec]; rfl, ?_, Or.inl (by rw [← hst])⟩
      rw [← hrec]
      simp only [mkRecord]
      constructor
      · intro hno
        exact absurd hno (by decide)
      · intro hcc
        exact absurd hcc hc
  · refine ⟨by norm_num [round3, ALERT_THRESHOLD, round_eq], ?_, ?_⟩
    · norm_num [ALERT_THRESHOLD]
    · norm_num [round3, round_eq]

/-- Witness for C10: a completed detection at unrounded confidence 87/100
stores exactly `round3 (87/100)` and its alert status reflects the
unrounded comparison. -/
theorem C10_witness :
    (mkRecord "p" "q" "suspicious" (87/100) "SENT").confidence
      = round3 (87/100) ∧
    ((mkRecord "p" "q" "suspicious" (87/100) "SENT").alert = "SENT" ↔
      "suspicious" = "suspicious" ∧ ALERT_THRESHOLD ≤ (87/100 : ℚ)) ∧
    ((⟨[mkRecord "p" "q" "suspicious" (87/100) "SENT"],
       [mkRecord "p" "q" "suspicious" (87/100) "SENT"]⟩ : ServerState).daily_alert_buffer
       = (⟨[], []⟩ : ServerState).daily_alert_buffer ∨
     (⟨[mkRecord "p" "q" "suspicious" (87/100) "SENT"],
       [mkRecord "p" "q" "suspicious" (87/100) "SENT"]⟩ : ServerState).daily_alert_buffer
       = (⟨[], []⟩ : ServerState).daily_alert_buffer
         ++ [mkRecord "p" "q" "suspicious" (87/100) "SENT"]) :=
  C10_thm.1 "suspicious" (87/100) (Except.ok ()) "p" "q" ⟨[], []⟩
    ⟨[mkRecord "p" "q" "suspicious" (87/100) "SENT"],
     [mkRecord "p" "q" "suspicious" (87/100) "SENT"]⟩
    (mkRecord "p" "q" "suspicious" (87/100) "SENT")
    (by rw [predict, if_pos ⟨rfl, by norm_num [ALERT_THRESHOLD]⟩]; rfl)
